import Mathlib

/-!
Shallow embedding of `slo_lambda/src/windowed_slo.py` (windowed SLI
computation and publishing engine).

Modelling conventions:
* Python floats are modelled as rationals (`ℚ`); every arithmetic identity
  the code computes is exact in this model.
* JSON-decoded Python values (the SLI configuration is JSON produced by
  Terraform) are modelled by the inductive `JVal`; Python dicts are
  association lists in insertion order, matching Python 3 dict iteration
  order.
* Python exceptions are modelled by the `PyError` type; fallible code
  returns `Except PyError α`.  `try/except` over a set of exception
  classes is modelled by testing the error kind with a Boolean predicate.
* The CloudWatch client is modelled as an explicit parameter: a `Backend`
  function mapping a read query to datapoints or an API error, and a
  `PutFn` for `put_metric_data` returning `none` on success or the raised
  API error.
* Wall-clock time is an explicit parameter `nowD`: the value of
  `datetime.utcnow()` measured in days since `datetime.min`
  (0001-01-01T00:00).  The `StartTime = utcnow() - timedelta(days=w)`
  computation is modelled including its `OverflowError` conditions (the
  `timedelta` magnitude bound and the `datetime` range bound), because
  that exception is NOT among the classes `parse_sli_json` catches and
  escapes parsing.  The two `utcnow()` calls of one constructor (lines
  79 and 81), microseconds apart in reality, are modelled as the same
  instant.
-/

namespace WindowedSLO

/-- A JSON-decoded Python value (the shapes `json.loads` can produce). -/
inductive JVal where
  | null
  | bool (b : Bool)
  | num (q : ℚ)
  | str (s : String)
  | arr (elems : List JVal)
  | obj (fields : List (String × JVal))

/-- The Python exception kinds raised or caught by `windowed_slo.py`. -/
inductive PyError where
  | zeroDivisionError
  | keyError (msg : String)
  | typeError (msg : String)
  | valueError (msg : String)
  | overflowError (msg : String)
  | clientError (msg : String)
  | botoCoreError (msg : String)
  | runtimeError (msg : String)
deriving DecidableEq

/-- Association-list lookup, modelling Python dict subscripting by a
string key (first match; dicts have unique keys). -/
def lookupKey {α : Type} (k : String) : List (String × α) → Option α
  | [] => none
  | (k', v) :: rest => if k' = k then some v else lookupKey k rest

/-- Python truthiness of a JSON-decoded value (`if x:`). -/
def pyTruthy : JVal → Bool
  | .null => false
  | .bool b => b
  | .num q => if q = 0 then false else true
  | .str s => !s.isEmpty
  | .arr l => !l.isEmpty
  | .obj l => !l.isEmpty

/-- Python truthiness of an optional keyword argument: an absent argument
defaults to `None`, which is falsy. -/
def pyTruthyOpt : Option JVal → Bool
  | none => false
  | some v => pyTruthy v

/-- A Python `digitpart`: a nonempty run of decimal digits with single
underscores allowed strictly between digits.  Returns the digits with
the underscores stripped, or `none` if the string is not a valid
digitpart. -/
def digits? (s : String) : Option String :=
  if s.isEmpty then none
  else if !(s.toList.all (fun c => c.isDigit || c = '_')) then none
  else if s.startsWith "_" || s.endsWith "_" then none
  else if (s.splitOn "__").length ≠ 1 then none
  else some (s.replace "_" "")

/-- The mantissa of a Python float literal: `digitpart`, or
`digitpart . digitpart?`, or `. digitpart` — as a rational together with
nothing lost (exact decimal value). -/
def mantissa? (s : String) : Option ℚ :=
  match s.splitOn "." with
  | [w] => (digits? w).bind (fun d => (d.toNat?).map (fun n => (n : ℚ)))
  | [w, f] =>
    if w.isEmpty && f.isEmpty then none
    else
      match (if w.isEmpty then some "0" else digits? w),
          (if f.isEmpty then some "0" else digits? f) with
      | some dw, some df =>
        match dw.toNat?, df.toNat? with
        | some a, some b =>
          some ((a : ℚ) + (b : ℚ) / ((10 : ℚ) ^ df.length))
        | _, _ => none
      | _, _ => none
  | _ => none

/-- The exponent of a Python float literal: optional sign then a
`digitpart`. -/
def exponent? (s : String) : Option Int :=
  let (sign, body) :=
    if s.startsWith "-" then ((-1 : Int), s.drop 1)
    else if s.startsWith "+" then ((1 : Int), s.drop 1)
    else ((1 : Int), s)
  (digits? body).bind (fun d => (d.toNat?).map (fun n => sign * (n : Int)))

/-- Finite-decimal string parsing for Python `float(str)`: optional
surrounding whitespace, optional sign, mantissa with optional fractional
part, optional `e`/`E` exponent, single underscores between digits.  The
non-finite literals `inf`/`infinity`/`nan`, which Python also accepts,
produce non-finite floats and lie outside the rational model of finite
float values; they are not represented.  Exact: every accepted finite
decimal literal denotes its exact rational value. -/
def parseFloat? (s : String) : Option ℚ :=
  let t := s.trim
  let (sign, body) :=
    if t.startsWith "-" then ((-1 : ℚ), t.drop 1)
    else if t.startsWith "+" then ((1 : ℚ), t.drop 1)
    else ((1 : ℚ), t)
  match (body.toLower).splitOn "e" with
  | [m] => (mantissa? m).map (fun q => sign * q)
  | [m, ex] =>
    match mantissa? m, exponent? ex with
    | some q, some e =>
      if 0 ≤ e then some (sign * q * ((10 : ℚ) ^ e.toNat))
      else some (sign * q / ((10 : ℚ) ^ (-e).toNat))
    | _, _ => none
  | _ => none

/-- The magnitude `2 ^ 1024` beyond which Python `float(int)` raises
`OverflowError`: a JSON integer literal of that size decodes to an
unbounded Python `int`; JSON float literals are already finite doubles
(magnitude below `2 ^ 1024`), so the single bound is faithful for both
number shapes `JVal.num` conflates.  Exact to within one rounding ulp at
the boundary (ints round to nearest float before the overflow check). -/
def floatOverflowBound : ℚ := ((2 : ℚ) ^ 32) ^ 32

/-- Python `float(x)` on a JSON-decoded value: numbers and booleans
convert (an integer of magnitude at least `2 ^ 1024` raises
`OverflowError`), numeric strings parse (`ValueError` otherwise), every
other shape raises `TypeError`. -/
def pyFloat : JVal → Except PyError ℚ
  | .num q =>
    if q ≤ -floatOverflowBound ∨ floatOverflowBound ≤ q then
      .error (.overflowError "int too large to convert to float")
    else .ok q
  | .bool b => .ok (if b then 1 else 0)
  | .str s =>
    match parseFloat? s with
    | some q => .ok q
    | none => .error (.valueError "could not convert string to float")
  | .null => .error (.typeError "float argument must be a string or a real number, not NoneType")
  | .arr _ => .error (.typeError "float argument must be a string or a real number, not list")
  | .obj _ => .error (.typeError "float argument must be a string or a real number, not dict")

/-- Largest `days` value `datetime.timedelta(days=...)` accepts:
`timedelta.max` is 999999999 days 23:59:59.999999. -/
def tdMaxDays : ℚ := 1000000000 - 1 / 86400000000

/-- Smallest `days` value `datetime.timedelta(days=...)` accepts:
`timedelta.min` is -999999999 days. -/
def tdMinDays : ℚ := -999999999

/-- Latest representable `datetime`, in days since `datetime.min`
(0001-01-01T00:00): `datetime.max` is 9999-12-31 23:59:59.999999. -/
def dtMaxDays : ℚ := 3652059 - 1 / 86400000000

/-- Python `datetime.utcnow() - datetime.timedelta(days=x)` (line 79-80)
with `utcnow()` at `nowD` days since `datetime.min`: accepts ints/floats
(and bools, which are ints) and raises `TypeError` otherwise; raises
`OverflowError` when the `timedelta` magnitude bound or the `datetime`
range bound is exceeded — `OverflowError` is not among the classes
`parse_sli_json` catches.  On success returns the start instant together
with the numeric days value (used afterwards for `Period`).  Bounds are
exact to the microsecond; sub-microsecond rounding of extreme fractional
inputs is not modelled. -/
def pyStartTime (nowD : ℚ) : JVal → Except PyError (ℚ × ℚ)
  | .num q =>
    if q < tdMinDays ∨ tdMaxDays < q then
      .error (.overflowError "days out of range for timedelta")
    else if nowD - q < 0 ∨ dtMaxDays < nowD - q then
      .error (.overflowError "date value out of range")
    else .ok (nowD - q, q)
  | .bool b =>
    if nowD - (if b then 1 else 0) < 0 ∨ dtMaxDays < nowD - (if b then 1 else 0) then
      .error (.overflowError "date value out of range")
    else .ok (nowD - (if b then 1 else 0), if b then 1 else 0)
  | .null => .error (.typeError "unsupported type for timedelta days component: NoneType")
  | .str _ => .error (.typeError "unsupported type for timedelta days component: str")
  | .arr _ => .error (.typeError "unsupported type for timedelta days component: list")
  | .obj _ => .error (.typeError "unsupported type for timedelta days component: dict")

/-- Python `int(os.getenv(name))`: `int(None)` raises `TypeError` when the
variable is unset, a non-integer string raises `ValueError`.  This runs at
module import time for `WINDOW_DAYS`.  (Python also accepts a leading `+`
and digit underscores; surrounding whitespace is handled by `trim`.) -/
def pyInt : Option String → Except PyError Int
  | none => .error (.typeError "int argument must be a string or a number, not NoneType")
  | some s =>
    match s.trim.toInt? with
    | some n => .ok n
    | none => .error (.valueError "invalid literal for int with base 10")

/-- The `stat_args` dict built in `SingleMetric.__init__` (lines 78-90):
`StartTime = utcnow() - timedelta(days=window_days)` and
`EndTime = utcnow()` (both in days since `datetime.min`),
`Period = window_days * 24 * 60 * 60`, plus exactly one of the
`Statistics` / `ExtendedStatistics` keys. -/
structure StatArgs where
  StartTime : ℚ
  EndTime : ℚ
  Period : ℚ
  Statistics : Option (List JVal)
  ExtendedStatistics : Option (List JVal)

/-- State of a constructed `SingleMetric` object.  `nspace` is the
source's `namespace` attribute (a Lean keyword).  Python performs no type
checking on these attributes, so they remain raw `JVal`s; `multiplier`
went through `float(...)` and `window_days` through
`timedelta(days=...)`, so those are numeric. -/
structure SingleMetric where
  nspace : JVal
  metric_name : JVal
  dimensions : JVal
  statistic : Option JVal
  extended_statistic : Option JVal
  multiplier : ℚ
  window_days : ℚ
  stat_args : StatArgs

/-- The read query a `SingleMetric.sum` call sends to
`get_metric_statistics` (lines 98-103). -/
structure Query where
  qNamespace : JVal
  qMetricName : JVal
  qDimensions : JVal
  qArgs : StatArgs

/-- One CloudWatch datapoint: its named standard-statistic numeric fields,
and the optional `ExtendedStatistics` sub-dict. -/
structure Datapoint where
  stats : List (String × ℚ)
  extendedStats : Option (List (String × ℚ))

/-- The external CloudWatch read side (`get_metric_statistics`): maps a
query to the returned `Datapoints` list, or raises a botocore error. -/
abbrev Backend := Query → Except PyError (List Datapoint)

/-- The external CloudWatch write side (`put_metric_data`): namespace and
metric name and value in, `none` on success or the raised API error. -/
abbrev PutFn := String → String → ℚ → Option PyError

/-- Keyword parameters accepted by `SingleMetric.__init__` other than the
explicitly passed `window_days` (so a `window_days` key inside a metric
dict is a duplicate-argument `TypeError`). -/
def smAllowedKeys : List String :=
  ["namespace", "metric_name", "dimensions", "statistic", "extended_statistic", "multiplier"]

/-- The `multiplier` keyword with its default: absent means `1.0`, present
goes through `float(...)` (line 76). -/
def multOf (kwargs : List (String × JVal)) : Except PyError ℚ :=
  match lookupKey "multiplier" kwargs with
  | none => .ok 1
  | some v => pyFloat v

/-- Body of `SingleMetric.__init__` after argument binding, the
`multiplier` conversion and the `StartTime` computation: the statistic
branching of lines 84-90.  `if extended_statistic:` wins when truthy;
`elif statistic:` next; otherwise both `self.statistic` and the query
default to `"Sum"`.  `startT` and `nowT` are the computed
`StartTime`/`EndTime` instants. -/
def buildSM (ns mn dims : JVal) (statistic ext : Option JVal)
    (mult wd startT nowT : ℚ) : SingleMetric :=
  if pyTruthyOpt ext then
    { nspace := ns, metric_name := mn, dimensions := dims,
      statistic := statistic, extended_statistic := ext,
      multiplier := mult, window_days := wd,
      stat_args := { StartTime := startT, EndTime := nowT,
                     Period := wd * (24 * 60 * 60), Statistics := none,
                     ExtendedStatistics := some [ext.getD JVal.null] } }
  else if pyTruthyOpt statistic then
    { nspace := ns, metric_name := mn, dimensions := dims,
      statistic := statistic, extended_statistic := ext,
      multiplier := mult, window_days := wd,
      stat_args := { StartTime := startT, EndTime := nowT,
                     Period := wd * (24 * 60 * 60),
                     Statistics := some [statistic.getD JVal.null],
                     ExtendedStatistics := none } }
  else
    { nspace := ns, metric_name := mn, dimensions := dims,
      statistic := some (JVal.str "Sum"), extended_statistic := ext,
      multiplier := mult, window_days := wd,
      stat_args := { StartTime := startT, EndTime := nowT,
                     Period := wd * (24 * 60 * 60),
                     Statistics := some [JVal.str "Sum"],
                     ExtendedStatistics := none } }

/-- `SingleMetric(window_days=wd, **kwargs)` with `utcnow()` at `nowD`:
keyword binding (unexpected or missing keyword arguments raise
`TypeError` at the call), then the constructor body in source order:
`float(multiplier)` (line 76), then the
`utcnow() - timedelta(days=window_days)` computation for `StartTime`
(lines 79-80, where a wrongly-typed `window_days` raises `TypeError` and
an extreme one raises `OverflowError`), then the statistic branching. -/
def mkSingleMetric (nowD : ℚ) (window_days : JVal)
    (kwargs : List (String × JVal)) : Except PyError SingleMetric :=
  if kwargs.all (fun p => smAllowedKeys.contains p.1) then
    match lookupKey "namespace" kwargs, lookupKey "metric_name" kwargs,
        lookupKey "dimensions" kwargs with
    | some ns, some mn, some dims =>
      match multOf kwargs with
      | .error e => .error e
      | .ok mult =>
        match pyStartTime nowD window_days with
        | .error e => .error e
        | .ok sw =>
          .ok (buildSM ns mn dims (lookupKey "statistic" kwargs)
            (lookupKey "extended_statistic" kwargs) mult sw.2 sw.1 nowD)
    | _, _, _ => .error (.typeError "missing required positional argument")
  else .error (.typeError "got an unexpected keyword argument")

/-- `CompositeMetric` holds the constructed `SingleMetric` list. -/
structure CompositeMetric where
  metrics : List SingleMetric

/-- The list comprehension
`[SingleMetric(window_days=window_days, **m) for m in metrics]` over an
already-iterated list of elements: each element must be a dict
(`TypeError` otherwise), elements are constructed in order and the first
failure propagates. -/
def mkMetricList (nowD : ℚ) (wd : JVal) :
    List JVal → Except PyError (List SingleMetric)
  | [] => .ok []
  | JVal.obj o :: rest =>
    match mkSingleMetric nowD wd o with
    | .error e => .error e
    | .ok m =>
      match mkMetricList nowD wd rest with
      | .error e => .error e
      | .ok ms => .ok (m :: ms)
  | _ :: _ => .error (.typeError "argument after a double star must be a mapping")

/-- `CompositeMetric.__init__` (line 122-123): iterate the `metrics`
value.  A JSON array iterates its elements; a string iterates its
characters and a dict its keys, so a non-empty string or dict hits the
double-star `TypeError` on the first element while empty ones yield an
empty metric list; numbers, booleans and null are not iterable. -/
def mkComposite (nowD : ℚ) (wd : JVal) (metrics : JVal) :
    Except PyError CompositeMetric :=
  match metrics with
  | .arr l =>
    match mkMetricList nowD wd l with
    | .error e => .error e
    | .ok ms => .ok ⟨ms⟩
  | .str s =>
    if s.isEmpty then .ok ⟨[]⟩
    else .error (.typeError "argument after a double star must be a mapping")
  | .obj o =>
    if o.isEmpty then .ok ⟨[]⟩
    else .error (.typeError "argument after a double star must be a mapping")
  | _ => .error (.typeError "object is not iterable")

/-- An `SLI` object: a numerator and a denominator `CompositeMetric`. -/
structure SLI where
  numerator : CompositeMetric
  denominator : CompositeMetric

/-- Keyword parameters accepted by `SLI.__init__`. -/
def sliAllowedKeys : List String := ["numerator", "denominator", "window_days"]

/-- `SLI(**cfg)` with the module-level default window `W` (the
`WINDOW_DAYS` global): the config value must be a dict, keyword binding
requires `numerator` and `denominator` and accepts `window_days`; an
absent `window_days` takes the default parameter value `WINDOW_DAYS` and
an explicit `None` is also replaced by `WINDOW_DAYS` (lines 164-167).
The numerator composite is built before the denominator (lines 168-169). -/
def mkSLI (nowD : ℚ) (W : Int) (cfg : JVal) : Except PyError SLI :=
  match cfg with
  | .obj kw =>
    if kw.all (fun p => sliAllowedKeys.contains p.1) then
      match lookupKey "numerator" kw, lookupKey "denominator" kw with
      | some num, some den =>
        let wd : JVal :=
          match lookupKey "window_days" kw with
          | none => .num (W : ℚ)
          | some .null => .num (W : ℚ)
          | some v => v
        match mkComposite nowD wd num with
        | .error e => .error e
        | .ok nc =>
          match mkComposite nowD wd den with
          | .error e => .error e
          | .ok dc => .ok ⟨nc, dc⟩
      | _, _ => .error (.typeError "missing required positional argument")
    else .error (.typeError "got an unexpected keyword argument")
  | _ => .error (.typeError "argument after a double star must be a mapping")

/-- Subscripting a datapoint dict of numeric statistic fields with the
stored attribute value: only a string attribute can match a key, anything
else (including an unset `None` attribute) raises `KeyError`. -/
def jKeyLookup (l : List (String × ℚ)) : Option JVal → Option ℚ
  | some (JVal.str s) => lookupKey s l
  | _ => none

/-- `SingleMetric.query`: the namespace, metric name, dimensions and
`stat_args` sent to `get_metric_statistics` (lines 98-103). -/
def SingleMetric.query (m : SingleMetric) : Query :=
  { qNamespace := m.nspace, qMetricName := m.metric_name,
    qDimensions := m.dimensions, qArgs := m.stat_args }

/-- `SingleMetric.extract_stat` (lines 107-114): the extended path reads
`datapoint["ExtendedStatistics"][self.extended_statistic]`, the standard
path reads `datapoint[self.statistic]`; an absent key raises `KeyError`. -/
def SingleMetric.extract_stat (m : SingleMetric) (dp : Datapoint) :
    Except PyError ℚ :=
  if pyTruthyOpt m.extended_statistic then
    match dp.extendedStats with
    | none => .error (.keyError "ExtendedStatistics")
    | some ex =>
      match jKeyLookup ex m.extended_statistic with
      | some v => .ok v
      | none => .error (.keyError "extended statistic not on datapoint")
  else
    match jKeyLookup dp.stats m.statistic with
    | some v => .ok v
    | none => .error (.keyError "statistic not on datapoint")

/-- The accumulation loop of `SingleMetric.sum` (lines 97-104): starts at
`0.0`, adds each datapoint's extracted value, first extraction failure
propagates. -/
def extractTotal (m : SingleMetric) : ℚ → List Datapoint → Except PyError ℚ
  | t, [] => .ok t
  | t, dp :: rest =>
    match m.extract_stat dp with
    | .error e => .error e
    | .ok v => extractTotal m (t + v) rest

/-- The datapoint reduction of `SingleMetric.sum`: the accumulated total
over the returned datapoints, multiplied by the multiplier (line 105). -/
def SingleMetric.sumDatapoints (m : SingleMetric) (dps : List Datapoint) :
    Except PyError ℚ :=
  match extractTotal m 0 dps with
  | .error e => .error e
  | .ok t => .ok (t * m.multiplier)

/-- `SingleMetric.sum` (lines 92-105): issue the query, then reduce the
returned datapoints; a backend error propagates. -/
def SingleMetric.sum (m : SingleMetric) (bk : Backend) : Except PyError ℚ :=
  match bk m.query with
  | .error e => .error e
  | .ok dps => m.sumDatapoints dps

/-- The accumulation loop of `CompositeMetric.sum` (lines 125-131). -/
def sumMetrics (bk : Backend) : ℚ → List SingleMetric → Except PyError ℚ
  | t, [] => .ok t
  | t, m :: rest =>
    match m.sum bk with
    | .error e => .error e
    | .ok v => sumMetrics bk (t + v) rest

/-- `CompositeMetric.sum`: the arithmetic sum of the constituent
`SingleMetric.sum` results in declared order; any constituent failure
aborts the composite sum. -/
def CompositeMetric.sum (c : CompositeMetric) (bk : Backend) :
    Except PyError ℚ :=
  sumMetrics bk 0 c.metrics

/-- The read queries a composite issues, in order. -/
def CompositeMetric.queries (c : CompositeMetric) : List Query :=
  c.metrics.map SingleMetric.query

/-- `SLI.get_ratio` (lines 171-178): numerator sum, then denominator sum,
then Python float division, which raises `ZeroDivisionError` exactly when
the divisor is zero. -/
def SLI.get_ratio (s : SLI) (bk : Backend) : Except PyError ℚ :=
  match s.numerator.sum bk with
  | .error e => .error e
  | .ok n =>
    match s.denominator.sum bk with
    | .error e => .error e
    | .ok d => if d = 0 then .error .zeroDivisionError else .ok (n / d)

/-- The exception classes caught around `sli.get_ratio()` in
`publish_slis` (lines 187-197): `ZeroDivisionError`,
`botocore.exceptions.ClientError`, `botocore.exceptions.BotoCoreError`. -/
def publishCaught : PyError → Bool
  | .zeroDivisionError => true
  | .clientError _ => true
  | .botoCoreError _ => true
  | _ => false

/-- `publish_slis` (lines 181-209): per SLI in mapping order, compute the
ratio; on a caught exception log and `continue`; on any other exception
propagate (aborting the remaining SLIs); on success call
`put_metric_data` for the derived metric name (the configured name
component, a dash, the SLI name) — a write failure is NOT
inside the `try` and propagates.  Returns the writes performed in order,
and the escaped exception if one was raised. -/
def publish_slis (bk : Backend) (put : PutFn) (slis : List (String × SLI))
    (sliNamespace namePre : String) : List (String × ℚ) × Option PyError :=
  match slis with
  | [] => ([], none)
  | (sliName, sli) :: rest =>
    match sli.get_ratio bk with
    | .error e =>
      if publishCaught e then publish_slis bk put rest sliNamespace namePre
      else ([], some e)
    | .ok v =>
      match put sliNamespace (namePre ++ "-" ++ sliName) v with
      | some e => ([], some e)
      | none =>
        let r := publish_slis bk put rest sliNamespace namePre
        ((sliName, v) :: r.1, r.2)

/-- The exception classes caught around `SLI(**sli_config)` in
`parse_sli_json` (line 227): `KeyError`, `TypeError`, `ValueError`. -/
def parseCaught : PyError → Bool
  | .keyError _ => true
  | .typeError _ => true
  | .valueError _ => true
  | _ => false

/-- `parse_sli_json` (lines 212-230) applied to the already-decoded JSON
object (`json.loads` is external stdlib; the handler model takes it as a
parameter): construct an `SLI` per entry in order, keep successes, skip
entries raising a caught class with a diagnostic, let any other
exception — notably the `OverflowError` reachable through extreme
`window_days` or integer `multiplier` magnitudes — escape, aborting the
remaining entries. -/
def parse_sli_json (nowD : ℚ) (W : Int) : List (String × JVal) →
    Except PyError (List (String × SLI))
  | [] => .ok []
  | (sliName, cfg) :: rest =>
    match mkSLI nowD W cfg with
    | .ok s =>
      match parse_sli_json nowD W rest with
      | .error e => .error e
      | .ok r => .ok ((sliName, s) :: r)
    | .error e =>
      if parseCaught e then parse_sli_json nowD W rest else .error e

/-- `lambda_handler` (lines 233-246) together with the module-import
evaluation of `WINDOW_DAYS = int(os.getenv("WINDOW_DAYS"))` (line 22),
which runs before any handler code: convert `WINDOW_DAYS`, check the
three other environment variables in source order raising `RuntimeError`
when unset, decode the `SLIS` JSON (`jloads` models `json.loads`), parse,
publish.  Returns the writes performed and the escaped exception, if
any. -/
def lambda_handler (nowD : ℚ) (envW envNs envPre envSlis : Option String)
    (jloads : String → Except PyError (List (String × JVal)))
    (bk : Backend) (put : PutFn) : List (String × ℚ) × Option PyError :=
  match pyInt envW with
  | .error e => ([], some e)
  | .ok W =>
    match envNs with
    | none => ([], some (.runtimeError "SLI_NAMESPACE not set in environment"))
    | some ns =>
      match envPre with
      | none => ([], some (.runtimeError "SLI_PREFIX not set in environment"))
      | some npre =>
        match envSlis with
        | none => ([], some (.runtimeError "SLIS definition JSON not set in environment"))
        | some sliStr =>
          match jloads sliStr with
          | .error e => ([], some e)
          | .ok cfgs =>
            match parse_sli_json nowD W cfgs with
            | .error e => ([], some e)
            | .ok slis => publish_slis bk put slis ns npre

/-! ### Specification devices and concrete fixtures -/

/-- Whether an `Except` result is a success (used to state that a call
fails with a caller-visible error). -/
def exOk {α : Type} : Except PyError α → Bool
  | .ok _ => true
  | .error _ => false

/-- Per-datapoint extraction over a whole list: the values
`extract_stat` produces in order, or the first extraction error.  Used to
state what `SingleMetric.sum` reduces the returned datapoints to. -/
def extractAll (m : SingleMetric) : List Datapoint → Except PyError (List ℚ)
  | [] => .ok []
  | dp :: rest =>
    match m.extract_stat dp with
    | .error e => .error e
    | .ok v =>
      match extractAll m rest with
      | .error e => .error e
      | .ok vs => .ok (v :: vs)

/-- The requested statistic key is absent on a datapoint: on the extended
path, either the `ExtendedStatistics` dict or the named percentile inside
it is missing; on the standard path, the named statistic key is
missing. -/
def statKeyAbsent (m : SingleMetric) (dp : Datapoint) : Bool :=
  if pyTruthyOpt m.extended_statistic then
    match dp.extendedStats with
    | none => true
    | some ex => (jKeyLookup ex m.extended_statistic).isNone
  else
    (jKeyLookup dp.stats m.statistic).isNone

/-- One batch entry fails only in ways `publish_slis` catches, or
succeeds end to end: its ratio either raises a caught exception class or
computes, and on success its `put_metric_data` write does not raise. -/
def entryIsolated (bk : Backend) (put : PutFn) (sliNamespace namePre : String)
    (p : String × SLI) : Bool :=
  match p.2.get_ratio bk with
  | .error e => publishCaught e
  | .ok v => (put sliNamespace (namePre ++ "-" ++ p.1) v).isNone

/-- A datapoint carrying only a `Sum` field. -/
def dpSum (v : ℚ) : Datapoint := ⟨[("Sum", v)], none⟩

/-- A concrete `utcnow()` instant: 2026-10-12T00:00 is 739900 days after
`datetime.min` (0001-01-01T00:00).  The exact current-day value is
irrelevant to every claim; it only has to lie inside the `datetime`
range. -/
def nowExample : ℚ := 739900

/-- A concrete default-statistic metric (multiplier 1, window 30). -/
def m0 : SingleMetric :=
  { nspace := .str "ns", metric_name := .str "m", dimensions := .arr [],
    statistic := some (.str "Sum"), extended_statistic := none,
    multiplier := 1, window_days := 30,
    stat_args := { StartTime := nowExample - 30, EndTime := nowExample,
                   Period := 30 * (24 * 60 * 60), Statistics := some [.str "Sum"],
                   ExtendedStatistics := none } }

/-- Like `m0` with multiplier 2. -/
def m2 : SingleMetric :=
  { nspace := .str "ns", metric_name := .str "m", dimensions := .arr [],
    statistic := some (.str "Sum"), extended_statistic := none,
    multiplier := 2, window_days := 30,
    stat_args := { StartTime := nowExample - 30, EndTime := nowExample,
                   Period := 30 * (24 * 60 * 60), Statistics := some [.str "Sum"],
                   ExtendedStatistics := none } }

/-- Like `m0` but requesting a statistic name no datapoint carries. -/
def mTypo : SingleMetric :=
  { nspace := .str "ns", metric_name := .str "m", dimensions := .arr [],
    statistic := some (.str "Typo"), extended_statistic := none,
    multiplier := 1, window_days := 30,
    stat_args := { StartTime := nowExample - 30, EndTime := nowExample,
                   Period := 30 * (24 * 60 * 60), Statistics := some [.str "Typo"],
                   ExtendedStatistics := none } }

/-- A backend returning one datapoint with `Sum = 1` for every query. -/
def bkOne : Backend := fun _ => .ok [dpSum 1]

/-- A backend returning two datapoints (`Sum = 3` and `Sum = 4`). -/
def bkTwo : Backend := fun _ => .ok [dpSum 3, dpSum 4]

/-- A backend raising a `ClientError` for every query. -/
def bkDown : Backend := fun _ => .error (.clientError "backend down")

/-- A write function that always succeeds. -/
def putOk : PutFn := fun _ _ _ => none

/-- A write function raising a `ClientError` for every write. -/
def putFail : PutFn := fun _ _ _ => some (.clientError "throttled")

/-- An SLI whose numerator and denominator both sum to 1 under `bkOne`. -/
def sliOne : SLI := ⟨⟨[m0]⟩, ⟨[m0]⟩⟩

/-- An SLI with a nonempty numerator and an empty denominator. -/
def sliNoDen : SLI := ⟨⟨[m0]⟩, ⟨[]⟩⟩

/-- A minimal metric-spec dict: the three required keys only. -/
def kw0 : List (String × JVal) :=
  [("namespace", .str "n"), ("metric_name", .str "mn"), ("dimensions", .arr [])]

/-- An SLI config entry with a well-formed shape but a negative
`window_days` — an "invalid value" in the claim's sense. -/
def negWindowCfg : JVal :=
  .obj [("numerator", .arr []), ("denominator", .arr []), ("window_days", .num (-3))]

/-- An SLI config entry whose `window_days` is so large that
`timedelta(days=10 ^ 10)` raises `OverflowError` while constructing its
one numerator metric — independently of the current date. -/
def overflowCfg : JVal :=
  .obj [("numerator", .arr [.obj kw0]), ("denominator", .arr []),
    ("window_days", .num (10 ^ 10))]

/-- A minimal well-formed SLI config entry (empty metric lists). -/
def fineCfg : JVal := .obj [("numerator", .arr []), ("denominator", .arr [])]

/-- An SLI config entry missing the required `denominator` field. -/
def missingDenCfg : JVal := .obj [("numerator", .arr [])]

/-- One config entry either constructs, or fails only with a class the
`except (KeyError, TypeError, ValueError)` at line 227 catches. -/
def entryParseCaught (nowD : ℚ) (W : Int) (p : String × JVal) : Bool :=
  match mkSLI nowD W p.2 with
  | .ok _ => true
  | .error e => parseCaught e

/-- A metric-spec dict supplying both `statistic` and
`extended_statistic`, the latter as the empty string (falsy). -/
def bothStatsKw : List (String × JVal) :=
  [("namespace", .str "n"), ("metric_name", .str "mn"), ("dimensions", .arr []),
   ("statistic", .str "Average"), ("extended_statistic", .str "")]

/-- A metric-spec dict supplying both `statistic` and a truthy
`extended_statistic`. -/
def bothTruthyKw : List (String × JVal) :=
  [("namespace", .str "n"), ("metric_name", .str "mn"), ("dimensions", .arr []),
   ("statistic", .str "Average"), ("extended_statistic", .str "p99")]

/-- An SLI config entry with one metric spec and no `window_days`. -/
def kwNoWindow : List (String × JVal) :=
  [("numerator", .arr [.obj kw0]), ("denominator", .arr [])]

/-! ### Helper lemmas -/

theorem buildSM_window_days (ns mn dims : JVal) (st ext : Option JVal)
    (mult wd startT nowT : ℚ) :
    (buildSM ns mn dims st ext mult wd startT nowT).window_days = wd := by
  unfold buildSM
  split
  · rfl
  · split <;> rfl

theorem buildSM_Period (ns mn dims : JVal) (st ext : Option JVal)
    (mult wd startT nowT : ℚ) :
    (buildSM ns mn dims st ext mult wd startT nowT).stat_args.Period =
      wd * (24 * 60 * 60) := by
  unfold buildSM
  split
  · rfl
  · split <;> rfl

theorem buildSM_multiplier (ns mn dims : JVal) (st ext : Option JVal)
    (mult wd startT nowT : ℚ) :
    (buildSM ns mn dims st ext mult wd startT nowT).multiplier = mult := by
  unfold buildSM
  split
  · rfl
  · split <;> rfl

theorem mkSingleMetric_inv {nowD : ℚ} {wd : JVal} {kwargs : List (String × JVal)}
    {m : SingleMetric} (h : mkSingleMetric nowD wd kwargs = .ok m) :
    ∃ ns mn dims mult sw,
      lookupKey "namespace" kwargs = some ns ∧
      lookupKey "metric_name" kwargs = some mn ∧
      lookupKey "dimensions" kwargs = some dims ∧
      multOf kwargs = .ok mult ∧
      pyStartTime nowD wd = .ok sw ∧
      m = buildSM ns mn dims (lookupKey "statistic" kwargs)
        (lookupKey "extended_statistic" kwargs) mult sw.2 sw.1 nowD := by
  unfold mkSingleMetric at h
  split at h
  · split at h
    next ns mn dims hns hmn hdims =>
      split at h
      · exact Except.noConfusion h
      next mult hmult =>
        split at h
        · exact Except.noConfusion h
        next sw hsw =>
          exact ⟨ns, mn, dims, mult, sw, hns, hmn, hdims, hmult, hsw,
            (Except.ok.inj h).symm⟩
    next =>
      exact Except.noConfusion h
  · exact Except.noConfusion h

theorem pyStartTime_num_snd {nowD q : ℚ} {sw : ℚ × ℚ}
    (h : pyStartTime nowD (.num q) = .ok sw) : sw.2 = q := by
  simp only [pyStartTime] at h
  split at h
  · exact Except.noConfusion h
  · split at h
    · exact Except.noConfusion h
    · cases Except.ok.inj h; rfl

theorem mkMetricList_window {nowD : ℚ} {wd : JVal} {l : List JVal}
    {ms : List SingleMetric} (h : mkMetricList nowD wd l = .ok ms) :
    ∀ m ∈ ms, (∃ s, pyStartTime nowD wd = .ok (s, m.window_days)) ∧
      m.stat_args.Period = m.window_days * (24 * 60 * 60) := by
  induction l generalizing ms with
  | nil =>
    cases Except.ok.inj h
    intro m hm
    cases hm
  | cons hd tl ih =>
    cases hd with
    | obj o =>
      simp only [mkMetricList] at h
      split at h
      next => exact Except.noConfusion h
      next m hm =>
        split at h
        next => exact Except.noConfusion h
        next ms' hms' =>
          cases Except.ok.inj h
          intro x hx
          rcases List.mem_cons.mp hx with hx | hx
          · subst hx
            obtain ⟨ns, mn, dims, mult, sw, _, _, _, _, hsw, hbm⟩ :=
              mkSingleMetric_inv hm
            subst hbm
            rw [buildSM_window_days, buildSM_Period]
            exact ⟨⟨sw.1, by rw [hsw]⟩, rfl⟩
          · exact ih hms' x hx
    | null => exact Except.noConfusion h
    | bool b => exact Except.noConfusion h
    | num q => exact Except.noConfusion h
    | str s => exact Except.noConfusion h
    | arr l2 => exact Except.noConfusion h

theorem mkComposite_window {nowD : ℚ} {wd mv : JVal} {c : CompositeMetric}
    (h : mkComposite nowD wd mv = .ok c) :
    ∀ m ∈ c.metrics, (∃ s, pyStartTime nowD wd = .ok (s, m.window_days)) ∧
      m.stat_args.Period = m.window_days * (24 * 60 * 60) := by
  cases mv with
  | arr l =>
    simp only [mkComposite] at h
    split at h
    next => exact Except.noConfusion h
    next ms hms =>
      cases Except.ok.inj h
      exact mkMetricList_window hms
  | str s =>
    simp only [mkComposite] at h
    split at h
    · cases Except.ok.inj h; intro m hm; cases hm
    · exact Except.noConfusion h
  | obj o =>
    simp only [mkComposite] at h
    split at h
    · cases Except.ok.inj h; intro m hm; cases hm
    · exact Except.noConfusion h
  | null => exact Except.noConfusion h
  | bool b => exact Except.noConfusion h
  | num q => exact Except.noConfusion h

theorem extractTotal_spec {m : SingleMetric} :
    ∀ {dps : List Datapoint} {vs : List ℚ} (t : ℚ),
      extractAll m dps = .ok vs → extractTotal m t dps = .ok (t + vs.sum) := by
  intro dps
  induction dps with
  | nil =>
    intro vs t h
    cases Except.ok.inj h
    simp [extractTotal]
  | cons dp rest ih =>
    intro vs t h
    simp only [extractAll] at h
    split at h
    next => exact Except.noConfusion h
    next v hv =>
      split at h
      next => exact Except.noConfusion h
      next vs' hvs' =>
        cases Except.ok.inj h
        simp only [extractTotal, hv]
        rw [ih (t + v) hvs', List.sum_cons, add_assoc]

theorem extractTotal_error_of_mem {m : SingleMetric} {dps : List Datapoint}
    {dp : Datapoint} (hmem : dp ∈ dps)
    (herr : exOk (m.extract_stat dp) = false) :
    ∀ t, exOk (extractTotal m t dps) = false := by
  induction dps with
  | nil => cases hmem
  | cons d rest ih =>
    intro t
    simp only [extractTotal]
    cases hx : m.extract_stat d with
    | error e => rfl
    | ok v =>
      rcases List.mem_cons.mp hmem with hd | hd
      · subst hd
        rw [hx] at herr
        exact absurd herr (by simp [exOk])
      · exact ih hd (t + v)

theorem statKeyAbsent_extract_error {m : SingleMetric} {dp : Datapoint}
    (h : statKeyAbsent m dp = true) : exOk (m.extract_stat dp) = false := by
  unfold statKeyAbsent at h
  unfold SingleMetric.extract_stat
  split at h
  next hc =>
    rw [if_pos hc]
    cases hex : dp.extendedStats with
    | none => rfl
    | some ex =>
      rw [hex] at h
      rw [Option.isNone_iff_eq_none] at h
      simp [h, exOk]
  next hc =>
    rw [if_neg hc]
    rw [Option.isNone_iff_eq_none] at h
    simp [h, exOk]

/-! ### Claim theorems -/

/-- C2: `get_ratio` raises the division-by-zero condition if and only if
the denominator sum is exactly zero; whenever the denominator sum is
nonzero it returns exactly `numerator.sum() / denominator.sum()`, with no
rounding and no clamping (division is exact in the rational model). -/
theorem get_ratio_exact_division (s : SLI) (bk : Backend) (n d : ℚ)
    (hn : s.numerator.sum bk = .ok n) (hd : s.denominator.sum bk = .ok d) :
    (s.get_ratio bk = .error .zeroDivisionError ↔ d = 0) ∧
    (d ≠ 0 → s.get_ratio bk = .ok (n / d)) := by
  unfold SLI.get_ratio
  rw [hn, hd]
  by_cases h0 : d = 0
  · simp [h0]
  · simp [h0]

/-- Witness for C2: under `bkOne` both sums of `sliOne` are 1, the ratio
does not raise division-by-zero and equals `1 / 1`. -/
theorem get_ratio_exact_division_witness :
    sliOne.numerator.sum bkOne = .ok 1 ∧ sliOne.denominator.sum bkOne = .ok 1 ∧
    ((sliOne.get_ratio bkOne = .error .zeroDivisionError ↔ (1 : ℚ) = 0) ∧
     ((1 : ℚ) ≠ 0 → sliOne.get_ratio bkOne = .ok (1 / 1))) :=
  ⟨by with_unfolding_all rfl, by with_unfolding_all rfl,
   get_ratio_exact_division sliOne bkOne 1 1
     (by with_unfolding_all rfl) (by with_unfolding_all rfl)⟩

/-- C4: `SingleMetric.sum` returns the configured statistic value
extracted from each returned datapoint, summed across all returned
datapoints (never averaged), multiplied by the multiplier. -/
theorem single_metric_sum_reduction (m : SingleMetric) (bk : Backend)
    (dps : List Datapoint) (vs : List ℚ)
    (hbk : bk m.query = .ok dps) (hx : extractAll m dps = .ok vs) :
    m.sum bk = .ok (vs.sum * m.multiplier) := by
  unfold SingleMetric.sum SingleMetric.sumDatapoints
  simp only [hbk]
  rw [extractTotal_spec 0 hx]
  simp

/-- Witness for C4: `bkTwo` returns two datapoints (3 and 4); with
multiplier 2 the fetch yields `(3 + 4) * 2`, summed, not averaged. -/
theorem single_metric_sum_reduction_witness :
    bkTwo m2.query = .ok [dpSum 3, dpSum 4] ∧
    extractAll m2 [dpSum 3, dpSum 4] = .ok [3, 4] ∧
    m2.sum bkTwo = .ok (([3, 4] : List ℚ).sum * m2.multiplier) :=
  ⟨by with_unfolding_all rfl, by with_unfolding_all rfl,
   single_metric_sum_reduction m2 bkTwo [dpSum 3, dpSum 4] [3, 4]
     (by with_unfolding_all rfl) (by with_unfolding_all rfl)⟩

/-- C5: when neither `statistic` nor `extended_statistic` is supplied,
the constructed metric uses the Sum reducer: the query requests the
`Sum` statistic (and no extended statistic) and extraction reads the
`Sum` value of each datapoint. -/
theorem default_statistic_is_sum (nowD : ℚ) (wd : JVal)
    (kwargs : List (String × JVal)) (m : SingleMetric)
    (h1 : lookupKey "statistic" kwargs = none)
    (h2 : lookupKey "extended_statistic" kwargs = none)
    (h : mkSingleMetric nowD wd kwargs = .ok m) :
    m.statistic = some (.str "Sum") ∧
    m.stat_args.Statistics = some [.str "Sum"] ∧
    m.stat_args.ExtendedStatistics = none ∧
    ∀ dp : Datapoint, m.extract_stat dp =
      match lookupKey "Sum" dp.stats with
      | some v => .ok v
      | none => .error (.keyError "statistic not on datapoint") := by
  obtain ⟨ns, mn, dims, mult, sw, _, _, _, _, _, hbm⟩ := mkSingleMetric_inv h
  rw [h1, h2] at hbm
  subst hbm
  refine ⟨rfl, rfl, rfl, ?_⟩
  intro dp
  show SingleMetric.extract_stat _ dp = _
  unfold SingleMetric.extract_stat
  cases hl : lookupKey "Sum" dp.stats <;>
    simp [buildSM, pyTruthyOpt, jKeyLookup, hl]

/-- Witness for C5: the minimal spec `kw0` supplies neither statistic;
the constructed metric defaults to `Sum` everywhere. -/
theorem default_statistic_is_sum_witness :
    lookupKey "statistic" kw0 = none ∧
    lookupKey "extended_statistic" kw0 = none ∧
    mkSingleMetric nowExample (.num 1) kw0 =
      .ok (buildSM (.str "n") (.str "mn") (.arr []) none none 1 1
        (nowExample - 1) nowExample) ∧
    ((buildSM (.str "n") (.str "mn") (.arr []) none none 1 1
        (nowExample - 1) nowExample).statistic = some (.str "Sum") ∧
     (buildSM (.str "n") (.str "mn") (.arr []) none none 1 1
        (nowExample - 1) nowExample).stat_args.Statistics = some [.str "Sum"] ∧
     (buildSM (.str "n") (.str "mn") (.arr []) none none 1 1
        (nowExample - 1) nowExample).stat_args.ExtendedStatistics = none ∧
     ∀ dp : Datapoint,
       (buildSM (.str "n") (.str "mn") (.arr []) none none 1 1
          (nowExample - 1) nowExample).extract_stat dp =
         match lookupKey "Sum" dp.stats with
         | some v => .ok v
         | none => .error (.keyError "statistic not on datapoint")) :=
  ⟨rfl, rfl, by with_unfolding_all rfl,
   default_statistic_is_sum nowExample (.num 1) kw0
     (buildSM (.str "n") (.str "mn") (.arr []) none none 1 1
       (nowExample - 1) nowExample)
     rfl rfl (by with_unfolding_all rfl)⟩

/-- C6: when the requested statistic key is absent on a returned
datapoint, the fetch fails with a caller-visible error instead of
treating that datapoint's value as zero. -/
theorem absent_statistic_key_fails (m : SingleMetric) (bk : Backend)
    (dps : List Datapoint) (dp : Datapoint)
    (hbk : bk m.query = .ok dps) (hmem : dp ∈ dps)
    (habs : statKeyAbsent m dp = true) :
    exOk (m.sum bk) = false := by
  unfold SingleMetric.sum SingleMetric.sumDatapoints
  simp only [hbk]
  have := extractTotal_error_of_mem hmem (statKeyAbsent_extract_error habs) 0
  cases hx : extractTotal m 0 dps with
  | error e => simp [exOk]
  | ok t => rw [hx] at this; exact absurd this (by simp [exOk])

/-- Witness for C6: `mTypo` requests statistic key `"Typo"`, absent on
the returned `Sum`-only datapoint, so the fetch fails. -/
theorem absent_statistic_key_fails_witness :
    bkOne mTypo.query = .ok [dpSum 1] ∧ dpSum 1 ∈ [dpSum 1] ∧
    statKeyAbsent mTypo (dpSum 1) = true ∧
    exOk (mTypo.sum bkOne) = false :=
  ⟨by with_unfolding_all rfl, List.mem_singleton.mpr rfl,
   by with_unfolding_all rfl,
   absent_statistic_key_fails mTypo bkOne [dpSum 1] (dpSum 1)
     (by with_unfolding_all rfl) (List.mem_singleton.mpr rfl)
     (by with_unfolding_all rfl)⟩

/-- C7: if `WINDOW_DAYS` is missing or non-integer (its `int(...)`
conversion at module import fails), or any of `SLI_NAMESPACE`,
`SLI_PREFIX`, `SLIS` is missing, the invocation raises before any SLI is
parsed or processed — for every decoder, backend and write function, no
metric is written and an error escapes. -/
theorem missing_process_config_fatal (nowD : ℚ)
    (envW envNs envPre envSlis : Option String)
    (jloads : String → Except PyError (List (String × JVal)))
    (bk : Backend) (put : PutFn)
    (h : exOk (pyInt envW) = false ∨ envNs = none ∨ envPre = none ∨
      envSlis = none) :
    (lambda_handler nowD envW envNs envPre envSlis jloads bk put).1 = [] ∧
    (lambda_handler nowD envW envNs envPre envSlis jloads bk put).2.isSome = true := by
  unfold lambda_handler
  cases hw : pyInt envW with
  | error e => exact ⟨rfl, rfl⟩
  | ok W =>
    rcases h with h | h | h | h
    · rw [hw] at h
      exact absurd h (by simp [exOk])
    · subst h
      exact ⟨rfl, rfl⟩
    · subst h
      cases envNs with
      | none => exact ⟨rfl, rfl⟩
      | some ns => exact ⟨rfl, rfl⟩
    · subst h
      cases envNs with
      | none => exact ⟨rfl, rfl⟩
      | some ns =>
        cases envPre with
        | none => exact ⟨rfl, rfl⟩
        | some npre => exact ⟨rfl, rfl⟩

/-- Witness for C7: `WINDOW_DAYS = "thirty"` is non-integer, so even with
every other variable set and a cooperative decoder and backend, nothing
is written and an error is raised. -/
theorem missing_process_config_fatal_witness :
    (exOk (pyInt (some "thirty")) = false ∨ (some "ns" : Option String) = none ∨
      (some "env" : Option String) = none ∨ (some "[]" : Option String) = none) ∧
    ((lambda_handler nowExample (some "thirty") (some "ns") (some "env")
        (some "[]") (fun _ => .ok []) bkOne putOk).1 = [] ∧
     (lambda_handler nowExample (some "thirty") (some "ns") (some "env")
        (some "[]") (fun _ => .ok []) bkOne putOk).2.isSome = true) :=
  ⟨Or.inl (by with_unfolding_all rfl),
   missing_process_config_fatal nowExample (some "thirty") (some "ns")
     (some "env") (some "[]") (fun _ => .ok []) bkOne putOk
     (Or.inl (by with_unfolding_all rfl))⟩

/-- C8: when a config entry omits `window_days`, every metric query of
both the numerator and the denominator of the constructed SLI uses the
process-wide default `WINDOW_DAYS` value `W`, with the aggregation period
spanning the whole window in seconds. -/
theorem absent_window_days_uses_default (nowD : ℚ) (W : Int)
    (kw : List (String × JVal)) (s : SLI)
    (habs : lookupKey "window_days" kw = none)
    (h : mkSLI nowD W (.obj kw) = .ok s) :
    (∀ m ∈ s.numerator.metrics,
      m.window_days = (W : ℚ) ∧
      m.stat_args.Period = (W : ℚ) * (24 * 60 * 60)) ∧
    (∀ m ∈ s.denominator.metrics,
      m.window_days = (W : ℚ) ∧
      m.stat_args.Period = (W : ℚ) * (24 * 60 * 60)) := by
  simp only [mkSLI, habs] at h
  split at h
  · split at h
    next num den hnum hden =>
      split at h
      next => exact Except.noConfusion h
      next nc hnc =>
        split at h
        next => exact Except.noConfusion h
        next dc hdc =>
          cases Except.ok.inj h
          constructor
          · intro m hm
            obtain ⟨⟨s0, hsw⟩, hper⟩ := mkComposite_window hnc m hm
            have hw : m.window_days = (W : ℚ) := pyStartTime_num_snd hsw
            exact ⟨hw, by rw [hper, hw]⟩
          · intro m hm
            obtain ⟨⟨s0, hsw⟩, hper⟩ := mkComposite_window hdc m hm
            have hw : m.window_days = (W : ℚ) := pyStartTime_num_snd hsw
            exact ⟨hw, by rw [hper, hw]⟩
    next => exact Except.noConfusion h
  · exact Except.noConfusion h

/-- Witness for C8: `kwNoWindow` omits `window_days`; with default 30 its
one numerator metric gets window 30 and period `30 * 86400`. -/
theorem absent_window_days_uses_default_witness :
    lookupKey "window_days" kwNoWindow = none ∧
    mkSLI nowExample 30 (.obj kwNoWindow) =
      .ok ⟨⟨[buildSM (.str "n") (.str "mn") (.arr []) none none 1
        ((30 : Int) : ℚ) (nowExample - ((30 : Int) : ℚ)) nowExample]⟩, ⟨[]⟩⟩ ∧
    ((∀ m ∈ (SLI.mk ⟨[buildSM (.str "n") (.str "mn") (.arr []) none none 1
        ((30 : Int) : ℚ) (nowExample - ((30 : Int) : ℚ)) nowExample]⟩
          ⟨[]⟩).numerator.metrics,
      m.window_days = ((30 : Int) : ℚ) ∧
      m.stat_args.Period = ((30 : Int) : ℚ) * (24 * 60 * 60)) ∧
    (∀ m ∈ (SLI.mk ⟨[buildSM (.str "n") (.str "mn") (.arr []) none none 1
        ((30 : Int) : ℚ) (nowExample - ((30 : Int) : ℚ)) nowExample]⟩
          ⟨[]⟩).denominator.metrics,
      m.window_days = ((30 : Int) : ℚ) ∧
      m.stat_args.Period = ((30 : Int) : ℚ) * (24 * 60 * 60))) :=
  ⟨rfl, by with_unfolding_all rfl,
   absent_window_days_uses_default nowExample 30 kwNoWindow
     ⟨⟨[buildSM (.str "n") (.str "mn") (.arr []) none none 1 ((30 : Int) : ℚ)
        (nowExample - ((30 : Int) : ℚ)) nowExample]⟩, ⟨[]⟩⟩
     rfl (by with_unfolding_all rfl)⟩

/-- C10 counterexample: an SLI with an empty denominator spec list does
NOT fail with the division-by-zero condition "regardless of backend
state" — when the numerator's backend query raises a `ClientError`, that
error propagates from `get_ratio` instead. -/
theorem empty_denominator_numerator_error_propagates :
    sliNoDen.get_ratio bkDown = .error (.clientError "backend down") ∧
    PyError.clientError "backend down" ≠ PyError.zeroDivisionError :=
  ⟨by with_unfolding_all rfl, by decide⟩

/-- C10 amended: a `CompositeMetric` built from an empty spec list issues
no backend query and sums to exactly 0; an SLI whose denominator list is
empty therefore fails `get_ratio` with the division-by-zero condition
whenever its numerator sum computes successfully (if the numerator fetch
itself raises, that error propagates instead). -/
theorem empty_denominator_zero_division (s : SLI) (bk : Backend) (n : ℚ)
    (hden : s.denominator.metrics = [])
    (hn : s.numerator.sum bk = .ok n) :
    s.denominator.queries = [] ∧ s.denominator.sum bk = .ok 0 ∧
    s.get_ratio bk = .error .zeroDivisionError := by
  have hq : s.denominator.queries = [] := by
    unfold CompositeMetric.queries
    rw [hden]
    rfl
  have hs : s.denominator.sum bk = .ok 0 := by
    unfold CompositeMetric.sum
    rw [hden]
    rfl
  refine ⟨hq, hs, ?_⟩
  unfold SLI.get_ratio
  rw [hn, hs]
  simp

/-- Witness for C10's amended claim: `sliNoDen` has an empty denominator;
under `bkOne` its numerator sums to 1 and `get_ratio` raises
division-by-zero. -/
theorem empty_denominator_zero_division_witness :
    sliNoDen.denominator.metrics = [] ∧
    sliNoDen.numerator.sum bkOne = .ok 1 ∧
    (sliNoDen.denominator.queries = [] ∧
     sliNoDen.denominator.sum bkOne = .ok 0 ∧
     sliNoDen.get_ratio bkOne = .error .zeroDivisionError) :=
  ⟨rfl, by with_unfolding_all rfl,
   empty_denominator_zero_division sliNoDen bkOne 1 rfl
     (by with_unfolding_all rfl)⟩

/-- C9 counterexample: a spec that supplies both `statistic = "Average"`
and `extended_statistic = ""` does not use the extended statistic — the
empty string is falsy, so the query requests `Statistics = ["Average"]`
and no extended statistic at all. -/
theorem falsy_extended_statistic_uses_standard :
    (mkSingleMetric nowExample (.num 1) bothStatsKw).map
        (fun m => (m.stat_args.Statistics, m.stat_args.ExtendedStatistics)) =
      .ok (some [.str "Average"], none) := by
  with_unfolding_all rfl

/-- C9 amended: when a spec supplies both `statistic` and
`extended_statistic` and the extended statistic is truthy (e.g. a
nonempty string), the constructed query requests only the extended
statistic and extraction reads only the extended-statistic value,
ignoring the standard statistic entirely. -/
theorem truthy_extended_statistic_exclusive (nowD : ℚ) (wd : JVal)
    (kwargs : List (String × JVal)) (e st : JVal) (m : SingleMetric)
    (hext : lookupKey "extended_statistic" kwargs = some e)
    (htr : pyTruthy e = true)
    (hst : lookupKey "statistic" kwargs = some st)
    (h : mkSingleMetric nowD wd kwargs = .ok m) :
    m.stat_args.ExtendedStatistics = some [e] ∧
    m.stat_args.Statistics = none ∧
    m.extended_statistic = some e ∧
    ∀ dp : Datapoint, m.extract_stat dp =
      match dp.extendedStats with
      | none => .error (.keyError "ExtendedStatistics")
      | some ex =>
        match jKeyLookup ex (some e) with
        | some v => .ok v
        | none => .error (.keyError "extended statistic not on datapoint") := by
  obtain ⟨ns, mn, dims, mult, sw, _, _, _, _, _, hbm⟩ := mkSingleMetric_inv h
  rw [hext, hst] at hbm
  subst hbm
  have htro : pyTruthyOpt (some e) = true := htr
  refine ⟨?_, ?_, ?_, ?_⟩
  · simp [buildSM, htro]
  · simp [buildSM, htro]
  · simp [buildSM, htro]
  · intro dp
    show SingleMetric.extract_stat _ dp = _
    unfold SingleMetric.extract_stat
    simp only [buildSM, htro, if_true]

/-- Witness for C9's amended claim: `bothTruthyKw` supplies
`statistic = "Average"` and truthy `extended_statistic = "p99"`; the
constructed query requests only the extended statistic. -/
theorem truthy_extended_statistic_exclusive_witness :
    lookupKey "extended_statistic" bothTruthyKw = some (.str "p99") ∧
    pyTruthy (.str "p99") = true ∧
    lookupKey "statistic" bothTruthyKw = some (.str "Average") ∧
    mkSingleMetric nowExample (.num 1) bothTruthyKw =
      .ok (buildSM (.str "n") (.str "mn") (.arr [])
        (some (.str "Average")) (some (.str "p99")) 1 1
        (nowExample - 1) nowExample) ∧
    ((buildSM (.str "n") (.str "mn") (.arr []) (some (.str "Average"))
        (some (.str "p99")) 1 1 (nowExample - 1) nowExample).stat_args.ExtendedStatistics =
      some [.str "p99"] ∧
     (buildSM (.str "n") (.str "mn") (.arr []) (some (.str "Average"))
        (some (.str "p99")) 1 1 (nowExample - 1) nowExample).stat_args.Statistics = none ∧
     (buildSM (.str "n") (.str "mn") (.arr []) (some (.str "Average"))
        (some (.str "p99")) 1 1 (nowExample - 1) nowExample).extended_statistic = some (.str "p99") ∧
     ∀ dp : Datapoint,
       (buildSM (.str "n") (.str "mn") (.arr []) (some (.str "Average"))
          (some (.str "p99")) 1 1 (nowExample - 1) nowExample).extract_stat dp =
         match dp.extendedStats with
         | none => .error (.keyError "ExtendedStatistics")
         | some ex =>
           match jKeyLookup ex (some (.str "p99")) with
           | some v => .ok v
           | none => .error (.keyError "extended statistic not on datapoint")) :=
  ⟨rfl, rfl, rfl, by with_unfolding_all rfl,
   truthy_extended_statistic_exclusive nowExample (.num 1) bothTruthyKw
     (.str "p99") (.str "Average")
     (buildSM (.str "n") (.str "mn") (.arr []) (some (.str "Average"))
       (some (.str "p99")) 1 1 (nowExample - 1) nowExample)
     rfl rfl rfl (by with_unfolding_all rfl)⟩

/-- C1 counterexample: a fault in one SLI's publish (backend write) call
DOES abort processing of the remaining SLIs and escapes `publish_slis`:
with a write function that raises `ClientError`, publishing
`[("a", sliOne), ("b", sliOne)]` stops at "a"'s write — "b" is never
evaluated or written and the error propagates. -/
theorem publish_write_error_aborts_batch :
    publish_slis bkOne putFail [("a", sliOne), ("b", sliOne)] "ns" "env" =
      ([], some (.clientError "throttled")) := by
  with_unfolding_all rfl

/-- C1 amended: `publish_slis` isolates exactly the failures it catches
around the ratio computation — `ZeroDivisionError` and the CloudWatch
API errors (`ClientError`/`BotoCoreError`): when every entry either
fails the ratio with a caught class or succeeds end to end (ratio
computed and write accepted), no exception escapes, every successful
entry is written in order, and every caught-failure entry is skipped.
(A failure of the write call itself, or any other exception from the
computation such as `KeyError`, is NOT caught and aborts the batch.) -/
theorem publish_slis_isolates_caught_failures (bk : Backend) (put : PutFn)
    (sliNamespace namePre : String) (slis : List (String × SLI))
    (h : ∀ p ∈ slis, entryIsolated bk put sliNamespace namePre p = true) :
    (publish_slis bk put slis sliNamespace namePre).2 = none ∧
    (publish_slis bk put slis sliNamespace namePre).1 =
      slis.filterMap (fun p =>
        match p.2.get_ratio bk with
        | .ok v => some (p.1, v)
        | .error _ => none) := by
  induction slis with
  | nil => exact ⟨rfl, rfl⟩
  | cons p rest ih =>
    obtain ⟨sliName, sli⟩ := p
    have hp := h _ (List.mem_cons_self _ _)
    have hrest := ih (fun q hq => h q (List.mem_cons_of_mem _ hq))
    unfold entryIsolated at hp
    cases hr : sli.get_ratio bk with
    | error e =>
      simp only [hr] at hp
      constructor
      · simp only [publish_slis, hr, hp, if_true]
        exact hrest.1
      · simp only [publish_slis, hr, hp, if_true]
        rw [hrest.2, List.filterMap_cons]
        simp only [hr]
    | ok v =>
      simp only [hr] at hp
      rw [Option.isNone_iff_eq_none] at hp
      constructor
      · simp only [publish_slis, hr, hp]
        exact hrest.1
      · simp only [publish_slis, hr, hp]
        rw [hrest.2, List.filterMap_cons]
        simp only [hr]

/-- Witness for C1's amended claim: a batch of a successful SLI, a
division-by-zero SLI and another successful SLI under an always-accepting
write function: nothing escapes, the zero-denominator entry is skipped
and both successes are written. -/
theorem publish_slis_isolates_caught_failures_witness :
    (∀ p ∈ [("a", sliOne), ("z", sliNoDen), ("b", sliOne)],
      entryIsolated bkOne putOk "ns" "env" p = true) ∧
    ((publish_slis bkOne putOk [("a", sliOne), ("z", sliNoDen), ("b", sliOne)]
        "ns" "env").2 = none ∧
     (publish_slis bkOne putOk [("a", sliOne), ("z", sliNoDen), ("b", sliOne)]
        "ns" "env").1 =
      ([("a", sliOne), ("z", sliNoDen), ("b", sliOne)] : List (String × SLI)).filterMap
        (fun p =>
          match p.2.get_ratio bkOne with
          | .ok v => some (p.1, v)
          | .error _ => none)) :=
  ⟨by with_unfolding_all decide,
   publish_slis_isolates_caught_failures bkOne putOk "ns" "env"
     [("a", sliOne), ("z", sliNoDen), ("b", sliOne)]
     (by with_unfolding_all decide)⟩

/-- C3 counterexample, refuting two clauses of the claim at concrete
inputs.  First, an entry with an invalid value — negative `window_days`
— is NOT skipped: the code performs no value validation, so
`parse_sli_json` retains it.  Second, "no exception escapes parsing" is
false: an entry whose `window_days = 10 ^ 10` makes the `StartTime`
computation `utcnow() - timedelta(days=...)` raise `OverflowError`,
which `except (KeyError, TypeError, ValueError)` does not catch, so the
exception escapes `parse_sli_json` and the well-formed entry after it is
never parsed. -/
theorem invalid_value_retained_and_overflow_escapes :
    (parse_sli_json nowExample 30 [("neg", negWindowCfg)]).map
        (fun l => l.map Prod.fst) = .ok ["neg"] ∧
    parse_sli_json nowExample 30 [("big", overflowCfg), ("fine", fineCfg)] =
      .error (.overflowError "days out of range for timedelta") :=
  ⟨by with_unfolding_all rfl, by with_unfolding_all rfl⟩

/-- C3 amended: over the entries of a decoded config set whose `SLI`
construction either succeeds or raises one of the classes the
`except (KeyError, TypeError, ValueError)` clause catches (missing
required field, unexpected field, wrong-typed field that fails
conversion), `parse_sli_json` raises nothing and returns exactly the
successfully constructing entries, in input order; the caught-failure
entries are skipped with a diagnostic.  Invalid values that construct
successfully (negative `window_days`, unrecognized statistic names) are
retained, not skipped — and an entry can instead raise `OverflowError`
(extreme `window_days` or integer `multiplier` magnitude), which is not
caught and escapes parsing, aborting the remaining entries. -/
theorem parse_sli_json_keeps_constructible_entries (nowD : ℚ) (W : Int)
    (configs : List (String × JVal))
    (h : ∀ p ∈ configs, entryParseCaught nowD W p = true) :
    parse_sli_json nowD W configs =
      .ok (configs.filterMap (fun p =>
        match mkSLI nowD W p.2 with
        | .ok s => some (p.1, s)
        | .error _ => none)) := by
  induction configs with
  | nil => rfl
  | cons p rest ih =>
    obtain ⟨sliName, cfg⟩ := p
    have hp := h _ (List.mem_cons_self _ _)
    have hrest := ih (fun q hq => h q (List.mem_cons_of_mem _ hq))
    unfold entryParseCaught at hp
    cases hc : mkSLI nowD W cfg with
    | ok s =>
      simp only [parse_sli_json, hc, hrest, List.filterMap_cons]
    | error e =>
      simp only [hc] at hp
      simp only [parse_sli_json, hc]
      rw [if_pos hp, hrest, List.filterMap_cons]
      simp only [hc]

/-- Witness for C3's amended claim: a well-formed entry, an entry missing
the required `denominator` (TypeError, caught and skipped) and an entry
with a negative `window_days` (constructs, retained): parsing raises
nothing and returns the two constructible entries. -/
theorem parse_sli_json_keeps_constructible_entries_witness :
    (∀ p ∈ [("good", fineCfg), ("bad", missingDenCfg), ("neg", negWindowCfg)],
      entryParseCaught nowExample 30 p = true) ∧
    parse_sli_json nowExample 30
        [("good", fineCfg), ("bad", missingDenCfg), ("neg", negWindowCfg)] =
      .ok (([("good", fineCfg), ("bad", missingDenCfg), ("neg", negWindowCfg)] :
          List (String × JVal)).filterMap (fun p =>
        match mkSLI nowExample 30 p.2 with
        | .ok s => some (p.1, s)
        | .error _ => none)) :=
  ⟨by with_unfolding_all decide,
   parse_sli_json_keeps_constructible_entries nowExample 30
     [("good", fineCfg), ("bad", missingDenCfg), ("neg", negWindowCfg)]
     (by with_unfolding_all decide)⟩

end WindowedSLO
